import Mathlib

/-!
Shallow embedding of the heuristic response-assessment engine of the
Versant repository (src/lib/scoring.ts), together with theorems settling
the frozen claims about it.

Modelling conventions:
* JavaScript numbers are modelled by `ℚ` (all the engine's arithmetic on
  the reachable paths is exact decimal/rational arithmetic); the final
  `Math.round` producing the returned integers is `mathRound : ℚ → ℤ`,
  JS rounding being `⌊x + 1/2⌋` (half away from minus infinity).
* Strings are Lean `String`s; the transcripts handled by the engine are
  ASCII, for which Lean's `Char.toLower` agrees with JS `toLowerCase`,
  and JS character classes `[A-Z]`, `\w`, `\s` are modelled explicitly.
* JS `s.split(/X+/)` is `splitRuns`: segments between maximal runs of
  delimiter characters, keeping empty leading/trailing segments, and
  `"".split` gives `[""]` (one empty segment).
* Optional parameters are `Option String`; JS truthiness of a string
  (`if (s)`) is `jsTruthyStr` (both `undefined` and `""` are falsy).
* `a?.b || c` on numbers is `jsOrQ` (`undefined`, `NaN` and `0` are
  falsy; on the reachable paths only `0` can occur).
-/

/-- JS whitespace class `\s` restricted to the ASCII range. -/
def jsWS (c : Char) : Bool :=
  c == ' ' || c == '\t' || c == '\n' || c == '\r' || c == '\x0b' || c == '\x0c'

/-- JS word-character class `\w` = `[A-Za-z0-9_]` (used by `\b`). -/
def isWordChar (c : Char) : Bool :=
  ('a' ≤ c && c ≤ 'z') || ('A' ≤ c && c ≤ 'Z') || ('0' ≤ c && c ≤ '9') || c == '_'

/-- ASCII lowercase letter `[a-z]`. -/
def isLowerAlpha (c : Char) : Bool :=
  'a' ≤ c && c ≤ 'z'

/-- JS `toLowerCase` on the ASCII range (Lean's `Char.toLower`). -/
def lowerStr (s : String) : String :=
  String.mk (s.data.map Char.toLower)

/-- JS `String.prototype.trim` (both ends, whitespace). -/
def jsTrimList (l : List Char) : List Char :=
  ((l.dropWhile jsWS).reverse.dropWhile jsWS).reverse

/-- JS `String.prototype.trim` on strings. -/
def jsTrimStr (s : String) : String :=
  String.mk (jsTrimList s.data)

/-- Segments of `l` between maximal runs of characters satisfying `p`
(fuel-driven worker; the fuel is always ample when called through
`splitRuns`). -/
def splitRunsFuel (p : Char → Bool) : ℕ → List Char → List (List Char)
  | 0, l => [l]
  | fuel + 1, l =>
      let tok := l.takeWhile (fun c => !(p c))
      let rest := l.dropWhile (fun c => !(p c))
      match rest with
      | [] => [tok]
      | _ :: _ => tok :: splitRunsFuel p fuel (rest.dropWhile p)

/-- JS `s.split(/X+/)` where `X` is the class decided by `p`. -/
def splitRuns (p : Char → Bool) (l : List Char) : List (List Char) :=
  splitRunsFuel p (l.length + 1) l

/-- JS `s.split(/\s+/)` (no filtering: empty leading/trailing segments kept,
and `"".split(/\s+/) = [""]`). -/
def wsTokens (s : String) : List String :=
  (splitRuns jsWS s.data).map (fun l => String.mk l)

/-- Sentence delimiter class `[.!?]`. -/
def isSentenceDelim (c : Char) : Bool :=
  c == '.' || c == '!' || c == '?'

/-- JS `text.split(/[.!?]+/).filter(s => s.trim().length > 0)`. -/
def sentencesOf (s : String) : List String :=
  ((splitRuns isSentenceDelim s.data).map (fun l => String.mk l)).filter
    (fun t => (jsTrimStr t).length > 0)

/-- JS `/^[A-Z]/.test(s)`. -/
def startsWithUpper (s : String) : Bool :=
  match s.data with
  | [] => false
  | c :: _ => 'A' ≤ c && c ≤ 'Z'

/-- JS `/[.!?]$/.test(s)`. -/
def endsWithTerminal (s : String) : Bool :=
  match s.data.getLast? with
  | none => false
  | some c => isSentenceDelim c

/-- Whether `pat` occurs at the very front of `text` (literal characters). -/
def isSeg : List Char → List Char → Bool
  | [], _ => true
  | _ :: _, [] => false
  | a :: as, b :: bs => a == b && isSeg as bs

/-- Substring containment: JS `hay.includes(needle)` on character lists. -/
def subList (needle : List Char) : List Char → Bool
  | [] => isSeg needle []
  | c :: rest => isSeg needle (c :: rest) || subList needle rest

/-- JS `hay.includes(needle)`. -/
def strIncludes (hay needle : String) : Bool :=
  subList needle.data hay.data

/-- `\b` to the left of a match: start of string or a non-word character. -/
def boundaryBefore : Option Char → Bool
  | none => true
  | some c => !(isWordChar c)

/-- `\b` to the right of a match: end of string or a non-word character. -/
def boundaryAfter : List Char → Bool
  | [] => true
  | c :: _ => !(isWordChar c)

/-- JS `/\bpat\b/.test(text)` for a literal `pat` that starts and ends with a
word character (true of every pattern in the engine's tables); `prev` is the
character just before the current position. -/
def wbSearch (pat : List Char) : Option Char → List Char → Bool
  | _, [] => false
  | prev, c :: rest =>
      (boundaryBefore prev && isSeg pat (c :: rest) &&
        boundaryAfter (List.drop pat.length (c :: rest))) || wbSearch pat (some c) rest

/-- JS `/\bpat\b/i.test(text)`; the caller passes an already lowercased
`text`, the `/i` flag being the lowercase comparison. -/
def wbTest (pat : String) (text : String) : Bool :=
  wbSearch pat.data none text.data

/-- First alternative of `alts` matching at the current position with `\b`
boundaries on both sides (JS alternation tries alternatives left to right);
returns its length. -/
def findFirstWB (alts : List (List Char)) (prev : Option Char) (l : List Char) : Option ℕ :=
  alts.findSome? (fun pat =>
    if boundaryBefore prev && isSeg pat l && boundaryAfter (List.drop pat.length l) then
      some pat.length
    else none)

/-- Worker for `countWBMatches` (fuel-driven global-regex scan; after a match
the scan resumes right after it, as with a JS global regex `lastIndex`). -/
def countWBGo (alts : List (List Char)) : ℕ → Option Char → List Char → ℕ
  | 0, _, _ => 0
  | _ + 1, _, [] => 0
  | fuel + 1, prev, c :: rest =>
      match findFirstWB alts prev (c :: rest) with
      | some len =>
          1 + countWBGo alts fuel ((List.take len (c :: rest)).getLast?)
                (List.drop len (c :: rest))
      | none => countWBGo alts fuel (some c) rest

/-- Number of matches of JS `text.match(/\b(a1|a2|...)\b/gi)` (0 when the
`match` returns `null`); the caller passes a lowercased `text`. -/
def countWBMatches (alts : List String) (text : String) : ℕ :=
  countWBGo (alts.map (fun a => a.data)) text.data.length none text.data

/-- JS truthiness of an optional string: `undefined` and `""` are falsy. -/
def jsTruthyStr : Option String → Bool
  | none => false
  | some s => !(s == "")

/-- JS `a?.f || c` for a numeric field: the fallback is used when the object
is absent or the field value is falsy (`0`; `NaN` cannot occur on the
engine's reachable paths). -/
def jsOrQ : Option ℚ → ℚ → ℚ
  | none, fb => fb
  | some v, fb => if v = 0 then fb else v

/-- JS `Math.round` (half toward plus infinity): `⌊q + 1/2⌋`, written with
the executable `Rat.floor` so that concrete scores evaluate. -/
def mathRound (q : ℚ) : ℤ :=
  Rat.floor (q + 1 / 2)

/-- The canonical five-dimension output bundle (`ScoringParameters` in
scoring.ts); the engine returns `Math.round`ed values, hence `ℤ` fields. -/
structure ScoringParameters where
  fluency : ℤ
  pronunciation : ℤ
  grammar : ℤ
  vocabulary : ℤ
  comprehension : ℤ
  deriving DecidableEq, Repr

/-- `SectionScore` of scoring.ts (`section` is a Lean keyword, hence
`sectionId`). -/
structure SectionScore where
  sectionId : String
  score : ℤ
  parameters : ScoringParameters
  feedback : String
  deriving DecidableEq, Repr

/-- One row of the fixed grammar common-error catalogue of scoring.ts. -/
structure ErrPat where
  pattern : String
  error : String
  penalty : ℚ
  deriving DecidableEq, Repr

/-- The fixed `commonErrors` catalogue of `analyzeGrammarFree`. -/
def commonErrors : List ErrPat :=
  [ ⟨"i am going to went", "Incorrect verb tense", 10⟩,
    ⟨"he don't", "Subject-verb disagreement", 8⟩,
    ⟨"she don't", "Subject-verb disagreement", 8⟩,
    ⟨"it don't", "Subject-verb disagreement", 8⟩,
    ⟨"much people", "Use \"many people\" not \"much people\"", 6⟩,
    ⟨"less people", "Use \"fewer people\" not \"less people\"", 6⟩,
    ⟨"more better", "Use \"better\" not \"more better\"", 6⟩,
    ⟨"most best", "Use \"best\" not \"most best\"", 6⟩,
    ⟨"can able to", "Use either \"can\" or \"able to\"", 5⟩,
    ⟨"would of", "Use \"would have\" not \"would of\"", 8⟩,
    ⟨"could of", "Use \"could have\" not \"could of\"", 8⟩,
    ⟨"should of", "Use \"should have\" not \"should of\"", 8⟩ ]

/-- The fixed conjunction list of `analyzeGrammarFree` (checked by plain
substring containment in the lowercased text). -/
def grammarConjunctions : List String :=
  ["and", "but", "because", "although", "however", "therefore", "moreover", "furthermore"]

/-- The error patterns of the catalogue matched in `text` (with the `/i`
flag, i.e. against the lowercased text). -/
def matchedErrorPatterns (text : String) : List ErrPat :=
  commonErrors.filter (fun pe => wbTest pe.pattern (lowerStr text))

/-- Result record of `analyzeGrammarFree`. -/
structure GrammarResult where
  score : ℚ
  errors : List String
  suggestions : List String
  deriving DecidableEq, Repr

/-- `analyzeGrammarFree` of scoring.ts: base 85, capitalization and
terminal-punctuation deductions, catalogue penalties, words-per-sentence
adjustment, conjunction bonus, clamped to [0,100]. -/
def analyzeGrammarFree (text : String) : GrammarResult :=
  let sentences := sentencesOf text
  let words := (wsTokens (lowerStr text)).filter (fun w => w.length > 0)
  let capMissing := !(startsWithUpper (jsTrimStr text))
  let punctMissing := !(endsWithTerminal (jsTrimStr text))
  let s1 : ℚ := if capMissing then 85 - 5 else 85
  let s2 : ℚ := if punctMissing then s1 - 5 else s1
  let s3 : ℚ := commonErrors.foldl
    (fun acc pe => if wbTest pe.pattern (lowerStr text) then acc - pe.penalty else acc) s2
  let avgWordsPerSentence : ℚ := (words.length : ℚ) / (max sentences.length 1 : ℕ)
  let s4 : ℚ :=
    if avgWordsPerSentence < 5 then s3 - 5
    else if avgWordsPerSentence > 25 then s3 - 3 else s3
  let hasConjunctions := grammarConjunctions.any (fun conj => strIncludes (lowerStr text) conj)
  let s5 : ℚ := if hasConjunctions then s4 + 5 else s4
  { score := max 0 (min 100 s5),
    errors :=
      (if capMissing then ["Missing capital letter at start"] else []) ++
      (if punctMissing then ["Missing ending punctuation"] else []) ++
      (matchedErrorPatterns text).map (fun pe => pe.error),
    suggestions :=
      (if capMissing then ["Start sentences with capital letters"] else []) ++
      (if punctMissing then ["End sentences with proper punctuation"] else []) ++
      (if avgWordsPerSentence < 5 then ["Try using longer, more complex sentences"]
       else if avgWordsPerSentence > 25 then ["Break down very long sentences for clarity"]
       else []) }

/-- The fixed academic word list of scoring.ts. -/
def academicWords : List String :=
  [ "analyze", "concept", "theory", "research", "study", "examine", "investigate",
    "demonstrate", "illustrate", "significant", "substantial", "comprehensive",
    "methodology", "hypothesis", "conclusion", "evidence", "criteria", "assessment" ]

/-- JS `isAcademicWord`. -/
def isAcademicWord (word : String) : Bool :=
  academicWords.contains word

/-- The fixed professional word list of scoring.ts. -/
def professionalWords : List String :=
  [ "experience", "responsibility", "management", "leadership", "collaboration",
    "communication", "development", "implementation", "strategy", "objective",
    "achievement", "performance", "efficiency", "productivity", "innovation",
    "solution", "challenge", "opportunity", "professional", "expertise" ]

/-- JS `isProfessionalWord`. -/
def isProfessionalWord (word : String) : Bool :=
  professionalWords.contains word

/-- JS `text.toLowerCase().match(/\b[a-z]+\b/g) || []`: the maximal `\w`-runs
of the lowercased text consisting entirely of letters (a run containing a
digit or an underscore has no inner `\b` and is skipped whole). -/
def vocabWords (text : String) : List String :=
  ((splitRuns (fun c => !(isWordChar c)) (lowerStr text).data).filter
    (fun r => !(r.isEmpty) && r.all isLowerAlpha)).map (fun l => String.mk l)

/-- JS `findWordRepetitions`: the distinct words of length > 3 occurring more
than twice. -/
def findWordRepetitions (words : List String) : List String :=
  let longWords := words.filter (fun w => w.length > 3)
  longWords.dedup.filter (fun w => longWords.count w > 2)

/-- The `metrics` record of `analyzeVocabularyFree`. -/
structure VocabMetrics where
  totalWords : ℕ
  uniqueWordCount : ℕ
  lexicalDiversity : ℚ
  avgWordLength : ℚ
  advancedWords : ℕ
  deriving DecidableEq, Repr

/-- Result record of `analyzeVocabularyFree`. -/
structure VocabResult where
  score : ℚ
  metrics : VocabMetrics
  suggestions : List String
  deriving DecidableEq, Repr

/-- `analyzeVocabularyFree` of scoring.ts: base 60, tiered diversity,
word-length and advanced-ratio bonuses, repetition penalty, clamped. -/
def analyzeVocabularyFree (text : String) : VocabResult :=
  let words := vocabWords text
  let totalWords := words.length
  let uniqueWordCount := words.dedup.length
  let lexicalDiversity : ℚ := (uniqueWordCount : ℚ) / (max totalWords 1 : ℕ)
  let avgWordLength : ℚ := (((words.map String.length).sum : ℕ) : ℚ) / (max totalWords 1 : ℕ)
  let advancedWords := words.filter
    (fun w => w.length ≥ 7 || isAcademicWord w || isProfessionalWord w)
  let s1 : ℚ := 60
  let s2 : ℚ :=
    if lexicalDiversity > 0.8 then s1 + 25
    else if lexicalDiversity > 0.6 then s1 + 20
    else if lexicalDiversity > 0.4 then s1 + 15
    else if lexicalDiversity > 0.2 then s1 + 10 else s1
  let s3 : ℚ :=
    if avgWordLength > 6 then s2 + 15
    else if avgWordLength > 5 then s2 + 10
    else if avgWordLength > 4 then s2 + 5 else s2
  let advancedFrac : ℚ := (advancedWords.length : ℚ) / (max totalWords 1 : ℕ)
  let s4 : ℚ :=
    if advancedFrac > 0.3 then s3 + 15
    else if advancedFrac > 0.2 then s3 + 10
    else if advancedFrac > 0.1 then s3 + 5 else s3
  let repetitions := findWordRepetitions words
  let s5 : ℚ := if repetitions.length > 0 then s4 - (repetitions.length : ℚ) * 3 else s4
  { score := max 0 (min 100 s5),
    metrics :=
      { totalWords := totalWords, uniqueWordCount := uniqueWordCount,
        lexicalDiversity := lexicalDiversity, avgWordLength := avgWordLength,
        advancedWords := advancedWords.length },
    suggestions :=
      (if repetitions.length > 0 then ["Avoid repeating the same words too often"] else []) ++
      (if lexicalDiversity < 0.5 then ["Try using more varied vocabulary"] else []) ++
      (if avgWordLength < 4.5 then ["Include some longer, more descriptive words"] else []) ++
      (if advancedWords.length = 0 then ["Consider using more sophisticated vocabulary"] else []) }

/-- The fixed synonym-group table of scoring.ts (`areSynonyms`). -/
def synonymGroups : List (List String) :=
  [ ["good", "great", "excellent", "wonderful", "amazing"],
    ["work", "job", "career", "profession", "employment"],
    ["learn", "study", "education", "knowledge", "training"],
    ["help", "assist", "support", "aid"],
    ["important", "significant", "crucial", "essential", "vital"],
    ["company", "organization", "business", "firm", "corporation"],
    ["skill", "ability", "capability", "competence", "expertise"],
    ["goal", "objective", "target", "aim", "purpose"] ]

/-- JS `areSynonyms`: the two words lie in a common synonym group. -/
def areSynonyms (word1 word2 : String) : Bool :=
  synonymGroups.any (fun group => group.contains word1 && group.contains word2)

/-- The per-token match test inside `countMatchingConcepts`: some transcript
word contains the hint token, is contained in it, or is one of its fixed
synonyms. -/
def conceptMatched (userWords : List String) (expectedWord : String) : Bool :=
  userWords.any (fun userWord =>
    strIncludes userWord expectedWord || strIncludes expectedWord userWord ||
      areSynonyms userWord expectedWord)

/-- JS `countMatchingConcepts` (the `forEach` accumulation of scoring.ts). -/
def countMatchingConcepts (userWords expectedWords : List String) : ℕ :=
  expectedWords.foldl
    (fun acc expectedWord =>
      if conceptMatched userWords expectedWord then acc + 1 else acc) 0

/-- The fixed situation-description markers of section B completeness. -/
def situationMarkers : List String :=
  ["situation", "problem", "challenge", "experience"]

/-- The fixed solution/action markers of section B completeness. -/
def actionMarkers : List String :=
  ["solution", "action", "did", "decided", "resolved"]

/-- `analyzeCompletenessForSection` of scoring.ts; the `question` parameter is
received (it is threaded from `assessResponse`) but never read, exactly as in
the source. `section` is a Lean keyword, hence `sectionId`. -/
def analyzeCompletenessForSection (text : String) (sectionId : String)
    (_question : Option String) : ℚ :=
  let words := wsTokens (lowerStr text)
  let completeness : ℚ :=
    if sectionId == "A" then
      if words.length ≥ 8 then 60 + 30
      else if words.length ≥ 5 then 60 + 20
      else if words.length ≥ 3 then 60 + 10 else 60
    else if sectionId == "B" then
      let b1 : ℚ :=
        if words.length ≥ 25 then 60 + 30
        else if words.length ≥ 15 then 60 + 20
        else if words.length ≥ 10 then 60 + 10 else 60
      let b2 : ℚ := if situationMarkers.any (fun w => strIncludes text w) then b1 + 5 else b1
      if actionMarkers.any (fun w => strIncludes text w) then b2 + 5 else b2
    else if sectionId == "G" then
      let g1 : ℚ :=
        if words.length ≥ 50 then 60 + 30
        else if words.length ≥ 35 then 60 + 20
        else if words.length ≥ 20 then 60 + 10 else 60
      let sentences := sentencesOf text
      if sentences.length ≥ 4 then g1 + 10 else g1
    else
      if words.length ≥ 15 then 60 + 25
      else if words.length ≥ 10 then 60 + 15
      else if words.length ≥ 5 then 60 + 10 else 60
  min 100 completeness

/-- The fixed transition-word list of the coherence check. -/
def transitionWords : List String :=
  ["first", "second", "then", "next", "finally", "however", "therefore", "because", "although"]

/-- The example-marker alternatives of `/for example|such as|like|including/`. -/
def exampleMarkers : List String :=
  ["for example", "such as", "like", "including"]

/-- JS `extractKeyPointsFree`. -/
def extractKeyPointsFree (sentences : List String) : List String :=
  ((sentences.filter (fun s => (jsTrimStr s).length > 15)).map (fun s => jsTrimStr s)).take 3

/-- Result record of `analyzeContentFree`. -/
structure ContentResult where
  relevance : ℚ
  completeness : ℚ
  coherence : ℚ
  keyPoints : List String
  deriving DecidableEq, Repr

/-- `analyzeContentFree` of scoring.ts. -/
def analyzeContentFree (text : String) (expectedAnswer : Option String)
    (question : Option String) (sectionId : Option String) : ContentResult :=
  let words := wsTokens (lowerStr text)
  let sentences := sentencesOf text
  let relevance : ℚ :=
    if jsTruthyStr expectedAnswer then
      let expectedWords := wsTokens (lowerStr (expectedAnswer.getD ""))
      min 100 (50 + ((countMatchingConcepts words expectedWords : ℚ) /
        (expectedWords.length : ℚ)) * 50)
    else 70
  let completeness : ℚ :=
    if jsTruthyStr sectionId then
      analyzeCompletenessForSection text (sectionId.getD "") question
    else
      let c1 : ℚ :=
        if words.length > 20 then 60 + 25
        else if words.length > 15 then 60 + 20
        else if words.length > 10 then 60 + 15
        else if words.length > 5 then 60 + 10 else 60
      if sentences.length > 2 then c1 + 15 else c1
  let coherence : ℚ :=
    let co1 : ℚ :=
      if transitionWords.any (fun w => strIncludes (lowerStr text) w) then 70 + 15 else 70
    if exampleMarkers.any (fun w => strIncludes (lowerStr text) w) then co1 + 10 else co1
  { relevance := min 100 relevance,
    completeness := min 100 completeness,
    coherence := min 100 coherence,
    keyPoints := extractKeyPointsFree sentences }

/-- The fixed positive-word list of `analyzeSentimentFree`. -/
def positiveWords : List String :=
  [ "good", "great", "excellent", "amazing", "wonderful", "fantastic", "love", "like", "enjoy",
    "happy", "excited", "passionate", "confident", "successful", "achieve", "accomplish",
    "opportunity", "growth", "development", "improvement", "positive", "optimistic" ]

/-- The fixed negative-word list of `analyzeSentimentFree`. -/
def negativeWords : List String :=
  [ "bad", "terrible", "awful", "hate", "dislike", "horrible", "worst", "difficult", "problem",
    "challenge", "struggle", "fail", "failure", "disappointed", "frustrated", "worried",
    "concerned", "negative", "pessimistic", "unfortunate", "regret" ]

/-- Result record of `analyzeSentimentFree`. -/
structure SentimentResult where
  sentiment : String
  confidence : ℚ
  tone : String
  deriving DecidableEq, Repr

/-- `analyzeSentimentFree` of scoring.ts (computed by the text analysis but
never folded into any returned dimension). -/
def analyzeSentimentFree (text : String) : SentimentResult :=
  let words := wsTokens (lowerStr text)
  let positiveCount := (words.filter (fun w => positiveWords.contains w)).length
  let negativeCount := (words.filter (fun w => negativeWords.contains w)).length
  if positiveCount > negativeCount then
    { sentiment := "positive",
      confidence := min 0.9 (0.5 + (((positiveCount : ℚ) - (negativeCount : ℚ)) /
        (words.length : ℚ)) * 2),
      tone := if positiveCount > negativeCount * 2 then "enthusiastic" else "positive" }
  else if negativeCount > positiveCount then
    { sentiment := "negative",
      confidence := min 0.9 (0.5 + (((negativeCount : ℚ) - (positiveCount : ℚ)) /
        (words.length : ℚ)) * 2),
      tone := if negativeCount > positiveCount * 2 then "pessimistic" else "cautious" }
  else { sentiment := "neutral", confidence := 0.5, tone := "neutral" }

/-- The joint result of `intelligentTextAnalysis`. -/
structure TextAnalysis where
  grammar : GrammarResult
  vocabulary : VocabResult
  content : ContentResult
  sentiment : SentimentResult
  deriving DecidableEq, Repr

/-- `intelligentTextAnalysis` of scoring.ts (a pure function: its `async`
wrapper can never reject). -/
def intelligentTextAnalysis (text : String) (expectedAnswer : Option String)
    (question : Option String) (sectionId : Option String) : TextAnalysis :=
  { grammar := analyzeGrammarFree text,
    vocabulary := analyzeVocabularyFree text,
    content := analyzeContentFree text expectedAnswer question sectionId,
    sentiment := analyzeSentimentFree text }

/-- The filler-word alternatives of the fluency regex
`/\b(um|uh|like|you know|basically|actually|sort of|kind of)\b/gi`. -/
def fillerAlternatives : List String :=
  ["um", "uh", "like", "you know", "basically", "actually", "sort of", "kind of"]

/-- The conjunction alternatives of the fluency regex
`/\b(and|but|because|although|however|therefore|moreover|furthermore|while|since)\b/gi`. -/
def fluencyConjAlternatives : List String :=
  ["and", "but", "because", "although", "however", "therefore", "moreover",
   "furthermore", "while", "since"]

/-- `estimatePronunciationFromText` of scoring.ts (the text-only
pronunciation proxy). -/
def estimatePronunciationFromText (text : String) : ℚ :=
  let words := wsTokens text
  let s1 : ℚ := 75
  let s2 : ℚ := if words.length > 15 then s1 + 10 else if words.length > 10 then s1 + 5 else s1
  let complexWords := words.filter (fun w => w.length > 6)
  let s3 : ℚ := if complexWords.length > 0 then s2 + 5 else s2
  let profWords := words.filter
    (fun w => isProfessionalWord (lowerStr w) || isAcademicWord (lowerStr w))
  let s4 : ℚ := if profWords.length > 0 then s3 + 5 else s3
  min 100 s4

/-- `estimateFluencyFromText` of scoring.ts (the text-only fluency proxy). -/
def estimateFluencyFromText (text : String) : ℚ :=
  let words := wsTokens text
  let sentences := sentencesOf text
  let s1 : ℚ := 70
  let s2 : ℚ :=
    if words.length > 20 then s1 + 15
    else if words.length > 15 then s1 + 10
    else if words.length > 10 then s1 + 5 else s1
  let fillerCount := countWBMatches fillerAlternatives (lowerStr text)
  let s3 : ℚ := if fillerCount > 0 then s2 - (fillerCount : ℚ) * 3 else s2
  let avgWordsPerSentence : ℚ := (words.length : ℚ) / (max sentences.length 1 : ℕ)
  let s4 : ℚ :=
    if avgWordsPerSentence > 12 then s3 + 10
    else if avgWordsPerSentence > 8 then s3 + 5 else s3
  let conjCount := countWBMatches fluencyConjAlternatives (lowerStr text)
  let s5 : ℚ := if conjCount > 0 then s4 + min 10 ((conjCount : ℚ) * 2) else s4
  min 100 (max 40 s5)

/-- `calculateFluencyFromRate` of scoring.ts: fluency from audio speaking
rate (words per minute) and pause ratio. -/
def calculateFluencyFromRate (speakingRate : ℚ) (pauseFraction : ℚ) : ℚ :=
  let f1 : ℚ :=
    if 140 ≤ speakingRate ∧ speakingRate ≤ 180 then 90
    else if 120 ≤ speakingRate ∧ speakingRate ≤ 200 then 80
    else if 100 ≤ speakingRate ∧ speakingRate ≤ 220 then 70
    else 60
  let f2 : ℚ :=
    if 0.1 < pauseFraction ∧ pauseFraction < 0.3 then f1 + 5
    else if pauseFraction > 0.4 then f1 - 10 else f1
  min 100 f2

/-- A successfully decoded audio buffer: the first channel's samples and the
sample rate (an `AudioBuffer`'s duration is `length / sampleRate`). A blob
whose decode fails is modelled as an absent buffer, exactly the observable
effect of `freeAudioAnalysis` catching the decode error and returning null. -/
structure AudioInput where
  samples : List ℚ
  sampleRate : ℚ
  deriving DecidableEq, Repr

/-- The audio metric bundle returned by `extractAudioMetrics`; `pauseRatio`
is called `pauseFraction` here, and the `volumeVariation` and `duration`
fields, which the score combiner never reads, are omitted from the model
(`volumeVariation` is the only use of an irrational square root in the
whole engine, and it is dead for scoring). -/
structure AudioMetrics where
  speakingRate : ℚ
  pauseFraction : ℚ
  clarity : ℚ
  deriving DecidableEq, Repr

/-- Mean of squares of a window; `calculateRMS` of scoring.ts is its square
root, and the engine only ever compares an RMS against a positive constant
`t`, which for a nonnegative radicand is equivalent to comparing the mean of
squares against `t^2` — the comparisons below use the squared thresholds. -/
def meanSquare (samples : List ℚ) : ℚ :=
  (samples.map (fun s => s * s)).sum / (samples.length : ℚ)

/-- Worker loop of `estimateWordCount`: windows of width `w`, a word boundary
counted where the current window's RMS is above 0.02 and the next window's
RMS is below 0.01 (squared: 1/2500 and 1/10000). -/
def wordBoundaryLoop (channelData : List ℚ) (w : ℕ) : ℕ → ℕ → ℕ
  | _, 0 => 0
  | i, fuel + 1 =>
      if i + w < channelData.length then
        let currentWindow := (channelData.drop i).take w
        let nextWindow := (channelData.drop (i + w)).take w
        (if meanSquare currentWindow > 1 / 2500 ∧ meanSquare nextWindow < 1 / 10000
          then 1 else 0) + wordBoundaryLoop channelData w (i + w) fuel
      else 0

/-- `estimateWordCount` of scoring.ts (energy-envelope word-boundary count,
floored at 1). The window is `Math.floor(sampleRate * 0.1)` samples; a
nonpositive window width (only possible for a degenerate sample rate, on
which the source loop would not terminate) is given ample fuel and counts
nothing. -/
def estimateWordCount (channelData : List ℚ) (sampleRate : ℚ) : ℕ :=
  let windowSize := (⌊sampleRate * 0.1⌋).toNat
  max 1 (wordBoundaryLoop channelData windowSize 0 (channelData.length + 1))

/-- `performBasicFFTAnalysis` of scoring.ts: the fraction of the signal's
energy at indices whose mapped frequency lies in (2000, 8000), scaled into
[60, 100]. -/
def performBasicFFTAnalysis (signal : List ℚ) (sampleRate : ℚ) : ℚ :=
  let totalEnergy : ℚ := (signal.map (fun s => s * s)).sum
  let highFreqEnergy : ℚ :=
    ((signal.enum.filter (fun p =>
        let freq : ℚ := ((p.1 : ℚ) / (signal.length : ℚ)) * (sampleRate / 2)
        2000 < freq ∧ freq < 8000)).map (fun p => p.2 * p.2)).sum
  let clarityFraction : ℚ := if totalEnergy > 0 then highFreqEnergy / totalEnergy else 0
  60 + clarityFraction * 40

/-- `estimateClarity` of scoring.ts: the FFT proxy on the first 2048 samples,
clamped into [50, 100]. -/
def estimateClarity (channelData : List ℚ) (sampleRate : ℚ) : ℚ :=
  min 100 (max 50 (performBasicFFTAnalysis (channelData.take 2048) sampleRate))

/-- `extractAudioMetrics` of scoring.ts (the duration of an `AudioBuffer` is
`length / sampleRate`). -/
def extractAudioMetrics (a : AudioInput) : AudioMetrics :=
  let duration : ℚ := (a.samples.length : ℚ) / a.sampleRate
  { speakingRate := ((estimateWordCount a.samples a.sampleRate : ℚ) / duration) * 60,
    pauseFraction := ((a.samples.filter (fun s => |s| < 0.01)).length : ℚ) /
      (a.samples.length : ℚ),
    clarity := estimateClarity a.samples a.sampleRate }

/-- `enhancedGrammarScore` of scoring.ts. -/
def enhancedGrammarScore (text : String) : ℚ :=
  (analyzeGrammarFree text).score

/-- `enhancedVocabularyScore` of scoring.ts. -/
def enhancedVocabularyScore (text : String) : ℚ :=
  (analyzeVocabularyFree text).score

/-- `enhancedComprehensionScore` of scoring.ts (note: it calls
`analyzeContentFree` without a question or section). -/
def enhancedComprehensionScore (text : String) (expectedAnswer : Option String) : ℚ :=
  (analyzeContentFree text expectedAnswer none none).relevance

/-- `combineIntelligentResults` of scoring.ts: merges the settled analyzer
outcomes (`none` = that analyzer failed or was absent) into the final
rounded `ScoringParameters`. -/
def combineIntelligentResults (textResult : Option TextAnalysis)
    (audioResult : Option AudioMetrics) (userResponse : String)
    (expectedAnswer : Option String) : ScoringParameters :=
  let grammar : ℚ :=
    jsOrQ (textResult.map (fun t => t.grammar.score)) (enhancedGrammarScore userResponse)
  let vocabulary : ℚ :=
    jsOrQ (textResult.map (fun t => t.vocabulary.score)) (enhancedVocabularyScore userResponse)
  let comprehension : ℚ :=
    jsOrQ (textResult.map (fun t => t.content.relevance))
      (enhancedComprehensionScore userResponse expectedAnswer)
  let pronunciation : ℚ :=
    match audioResult with
    | some a => if a.clarity ≠ 0 then a.clarity else estimatePronunciationFromText userResponse
    | none => estimatePronunciationFromText userResponse
  let fluency : ℚ :=
    match audioResult with
    | some a =>
        if a.speakingRate ≠ 0 then calculateFluencyFromRate a.speakingRate a.pauseFraction
        else estimateFluencyFromText userResponse
    | none => estimateFluencyFromText userResponse
  { fluency := mathRound fluency,
    pronunciation := mathRound pronunciation,
    grammar := mathRound grammar,
    vocabulary := mathRound vocabulary,
    comprehension := mathRound comprehension }

/-- `assessResponse` of scoring.ts, the engine's sole entry point. The two
booleans model the `Promise.allSettled` join: `textOk` (resp. `audioOk`) is
false when the text (resp. audio) analysis branch rejected, in which case the
combiner receives null for it. On the real code the text branch is a pure
function and always fulfils, and the audio branch fulfils with null when
decoding fails, but the model proves its claims for every settlement. -/
def assessResponse (textOk audioOk : Bool) (sectionId : String) (userResponse : String)
    (audioBlob : Option AudioInput) (expectedAnswer : Option String)
    (question : Option String) : ScoringParameters :=
  let textResult : Option TextAnalysis :=
    if textOk then
      some (intelligentTextAnalysis userResponse expectedAnswer question (some sectionId))
    else none
  let audioResult : Option AudioMetrics :=
    if audioOk then audioBlob.map extractAudioMetrics else none
  combineIntelligentResults textResult audioResult userResponse expectedAnswer

/-- `calculateSectionScore` of scoring.ts: rounded equally-weighted average
of the five parameters. -/
def calculateSectionScore (parameters : ScoringParameters) : ℤ :=
  mathRound (((parameters.fluency + parameters.pronunciation + parameters.grammar +
    parameters.vocabulary + parameters.comprehension : ℤ) : ℚ) / 5)

/-- `calculateOverallScore` of scoring.ts: 0 on an empty list, else the
rounded mean of the per-section scores (accumulated by `reduce`). -/
def calculateOverallScore (sectionScores : List SectionScore) : ℤ :=
  if sectionScores.length = 0 then 0
  else
    let total : ℤ := sectionScores.foldl (fun sum s => sum + s.score) 0
    mathRound ((total : ℚ) / (sectionScores.length : ℚ))

/-- `getScoreFeedback` of scoring.ts. -/
def getScoreFeedback (score : ℚ) : String :=
  if score ≥ 85 then "Excellent performance! You are very well-prepared for the placement test."
  else if score ≥ 75 then "Very good! Your communication skills are strong. Keep practicing to reach excellence."
  else if score ≥ 65 then "Good effort! You have solid fundamentals. Focus on improving weak areas."
  else if score ≥ 55 then "Fair performance. Dedicate more time to practice and improvement."
  else "Keep practicing! Focus on all areas of communication skills."

/-- `getScoreLevel` of scoring.ts. -/
def getScoreLevel (score : ℚ) : String :=
  if score ≥ 85 then "Excellent"
  else if score ≥ 75 then "Very Good"
  else if score ≥ 65 then "Good"
  else if score ≥ 55 then "Fair"
  else "Needs Improvement"

/-! ## Helper lemmas -/

unseal Rat.add Rat.mul Rat.inv Rat.sub Rat.ofScientific

lemma mathRound_eq_floor (q : ℚ) : mathRound q = ⌊q + 1 / 2⌋ := by
  rw [mathRound, Rat.floor_def', ← Rat.floor_def]

lemma mathRound_mem (q : ℚ) (h0 : 0 ≤ q) (h1 : q ≤ 100) :
    0 ≤ mathRound q ∧ mathRound q ≤ 100 := by
  rw [mathRound_eq_floor]
  constructor
  · exact Int.le_floor.mpr (by push_cast; linarith)
  · have h : ⌊q + 1 / 2⌋ < 101 := Int.floor_lt.mpr (by push_cast; linarith)
    omega

lemma splitRunsFuel_ne_nil (p : Char → Bool) (fuel : ℕ) (l : List Char) :
    splitRunsFuel p fuel l ≠ [] := by
  cases fuel with
  | zero => simp [splitRunsFuel]
  | succ n =>
      rw [splitRunsFuel]
      cases h : l.dropWhile (fun c => !(p c)) with
      | nil => simp [h]
      | cons c rest => simp [h]

lemma wsTokens_length_pos (s : String) : 0 < (wsTokens s).length := by
  rw [wsTokens, List.length_map]
  exact List.length_pos.mpr (splitRunsFuel_ne_nil _ _ _)

lemma countMatchingConcepts_eq_countP (userWords expectedWords : List String) :
    countMatchingConcepts userWords expectedWords =
      expectedWords.countP (fun w => conceptMatched userWords w) := by
  rw [countMatchingConcepts]
  have h : ∀ (l : List String) (n : ℕ),
      l.foldl (fun acc w => if conceptMatched userWords w then acc + 1 else acc) n =
        n + l.countP (fun w => conceptMatched userWords w) := by
    intro l
    induction l with
    | nil => intro n; simp
    | cons w l ih =>
        intro n
        by_cases h : conceptMatched userWords w <;>
          simp [List.foldl_cons, List.countP_cons, h, ih] <;> omega
  simpa using h expectedWords 0

lemma foldl_penalty_sub (f : ErrPat → Bool) (l : List ErrPat) (s : ℚ) :
    l.foldl (fun acc pe => if f pe then acc - pe.penalty else acc) s =
      s - ((l.filter f).map (fun pe => pe.penalty)).sum := by
  induction l generalizing s with
  | nil => simp
  | cons pe l ih =>
      by_cases h : f pe <;> simp [List.foldl_cons, List.filter_cons, h, ih] <;> ring

lemma foldl_score_sum (l : List SectionScore) (a : ℤ) :
    l.foldl (fun sum s => sum + s.score) a = a + (l.map (fun s => s.score)).sum := by
  induction l generalizing a with
  | nil => simp
  | cons s l ih => simp [List.foldl_cons, ih]; ring

/-! ## Claim theorems -/

/-- Claim C3: `getScoreLevel` follows the exact breakpoint table
(≥85 Excellent, ≥75 Very Good, ≥65 Good, ≥55 Fair, else Needs Improvement)
with the stated exact values at the 85/84, 75/74, 65/64 and 55/54
boundaries, and `getScoreFeedback` uses the same breakpoints for its
feedback sentences. -/
theorem c3_score_level_breakpoints :
    getScoreLevel 85 = "Excellent" ∧ getScoreLevel 84 = "Very Good" ∧
    getScoreLevel 75 = "Very Good" ∧ getScoreLevel 74 = "Good" ∧
    getScoreLevel 65 = "Good" ∧ getScoreLevel 64 = "Fair" ∧
    getScoreLevel 55 = "Fair" ∧ getScoreLevel 54 = "Needs Improvement" ∧
    (∀ score : ℚ,
      (85 ≤ score → getScoreLevel score = "Excellent" ∧
        getScoreFeedback score = "Excellent performance! You are very well-prepared for the placement test.") ∧
      (75 ≤ score ∧ score < 85 → getScoreLevel score = "Very Good" ∧
        getScoreFeedback score = "Very good! Your communication skills are strong. Keep practicing to reach excellence.") ∧
      (65 ≤ score ∧ score < 75 → getScoreLevel score = "Good" ∧
        getScoreFeedback score = "Good effort! You have solid fundamentals. Focus on improving weak areas.") ∧
      (55 ≤ score ∧ score < 65 → getScoreLevel score = "Fair" ∧
        getScoreFeedback score = "Fair performance. Dedicate more time to practice and improvement.") ∧
      (score < 55 → getScoreLevel score = "Needs Improvement" ∧
        getScoreFeedback score = "Keep practicing! Focus on all areas of communication skills.")) := by
  refine ⟨by norm_num [getScoreLevel], by norm_num [getScoreLevel],
    by norm_num [getScoreLevel], by norm_num [getScoreLevel],
    by norm_num [getScoreLevel], by norm_num [getScoreLevel],
    by norm_num [getScoreLevel], by norm_num [getScoreLevel], fun score => ?_⟩
  unfold getScoreLevel getScoreFeedback
  refine ⟨fun h => ?_, fun h => ?_, fun h => ?_, fun h => ?_, fun h => ?_⟩ <;>
    split_ifs with h1 h2 h3 h4 <;>
    first
      | exact ⟨rfl, rfl⟩
      | (exfalso; first | linarith [h.1, h.2] | linarith)

/-- Witness for C3 at a concrete interior input of the Good band. -/
theorem c3_score_level_breakpoints_witness :
    getScoreLevel 70 = "Good" ∧
      getScoreFeedback 70 = "Good effort! You have solid fundamentals. Focus on improving weak areas." :=
  ((c3_score_level_breakpoints.2.2.2.2.2.2.2.2 70).2.2.1 ⟨by norm_num, by norm_num⟩)

/-- Claim C4: `calculateSectionScore` is the rounded arithmetic mean of the
five dimensions (all-80 parameters give 80), and `calculateOverallScore` is
the rounded arithmetic mean of the per-section scores, returning 0 on an
empty list with no division by zero. -/
theorem c4_aggregator_rounded_means :
    (∀ p : ScoringParameters,
      calculateSectionScore p =
        mathRound (((p.fluency + p.pronunciation + p.grammar +
          p.vocabulary + p.comprehension : ℤ) : ℚ) / 5)) ∧
    calculateSectionScore ⟨80, 80, 80, 80, 80⟩ = 80 ∧
    calculateOverallScore [] = 0 ∧
    (∀ l : List SectionScore, l ≠ [] →
      calculateOverallScore l =
        mathRound ((((l.map (fun s => s.score)).sum : ℤ) : ℚ) / (l.length : ℚ))) := by
  refine ⟨fun p => rfl, by decide, rfl, fun l hl => ?_⟩
  rw [calculateOverallScore, if_neg (by simpa [List.length_eq_zero] using hl)]
  rw [foldl_score_sum]
  norm_num

/-- Witness for C4's nonempty-list conjunct at a concrete two-section list
(scores 80 and 71, mean 75.5, rounding to 76). -/
theorem c4_aggregator_rounded_means_witness :
    calculateOverallScore
        [⟨"A", 80, ⟨80, 80, 80, 80, 80⟩, "ok"⟩, ⟨"B", 71, ⟨80, 80, 80, 80, 80⟩, "ok"⟩] = 76 := by
  have h := c4_aggregator_rounded_means.2.2.2
    [⟨"A", 80, ⟨80, 80, 80, 80, 80⟩, "ok"⟩, ⟨"B", 71, ⟨80, 80, 80, 80, 80⟩, "ok"⟩]
    (by simp)
  rw [h]
  decide

/-- Claim C7: with audio metrics available, fluency is exactly the stated
function of speaking rate (inclusive bands 140-180 to 90, 120-200 to 80,
100-220 to 70, else 60) and pause ratio (+5 when strictly between 0.1 and
0.3, -10 when above 0.4), capped at 100. -/
theorem c7_fluency_from_rate_table :
    ∀ (speakingRate pauseFraction : ℚ),
      calculateFluencyFromRate speakingRate pauseFraction =
        min 100
          ((if 140 ≤ speakingRate ∧ speakingRate ≤ 180 then (90 : ℚ)
            else if 120 ≤ speakingRate ∧ speakingRate ≤ 200 then 80
            else if 100 ≤ speakingRate ∧ speakingRate ≤ 220 then 70
            else 60) +
          (if 0.1 < pauseFraction ∧ pauseFraction < 0.3 then (5 : ℚ)
            else if 0.4 < pauseFraction then -10 else 0)) := by
  intro speakingRate pauseFraction
  rw [calculateFluencyFromRate]
  split_ifs <;> norm_num

/-- The claimed lexical-diversity bonus tiers (at most one applies). -/
def diversityTier (d : ℚ) : ℚ :=
  if d > 0.8 then 25 else if d > 0.6 then 20 else if d > 0.4 then 15 else if d > 0.2 then 10 else 0

/-- The claimed average-word-length bonus tiers (at most one applies). -/
def wordLengthTier (a : ℚ) : ℚ :=
  if a > 6 then 15 else if a > 5 then 10 else if a > 4 then 5 else 0

/-- The claimed advanced-word-ratio bonus tiers (at most one applies). -/
def advancedTier (r : ℚ) : ℚ :=
  if r > 0.3 then 15 else if r > 0.2 then 10 else if r > 0.1 then 5 else 0

lemma diversity_chain_eq (s d : ℚ) :
    (if d > 0.8 then s + 25 else if d > 0.6 then s + 20
      else if d > 0.4 then s + 15 else if d > 0.2 then s + 10 else s) = s + diversityTier d := by
  rw [diversityTier]
  split_ifs <;> ring

lemma wordLength_chain_eq (s a : ℚ) :
    (if a > 6 then s + 15 else if a > 5 then s + 10 else if a > 4 then s + 5 else s) =
      s + wordLengthTier a := by
  rw [wordLengthTier]
  split_ifs <;> ring

lemma advanced_chain_eq (s r : ℚ) :
    (if r > 0.3 then s + 15 else if r > 0.2 then s + 10 else if r > 0.1 then s + 5 else s) =
      s + advancedTier r := by
  rw [advancedTier]
  split_ifs <;> ring

lemma repetition_chain_eq (s : ℚ) (n : ℕ) :
    (if n > 0 then s - (n : ℚ) * 3 else s) = s - 3 * (n : ℚ) := by
  rcases Nat.eq_zero_or_pos n with h | h
  · simp [h]
  · rw [if_pos h]; ring

/-- Claim C6: the vocabulary score is base 60 plus at most one tier per
metric (diversity, average word length, advanced-word ratio) minus 3 per
distinct over-repeated word of length > 3, clamped to [0,100]; an empty
transcript scores exactly the base 60 with no division by zero. -/
theorem c6_vocabulary_tiers :
    (∀ text : String,
      (analyzeVocabularyFree text).score =
        max 0 (min 100
          (60 + diversityTier (analyzeVocabularyFree text).metrics.lexicalDiversity +
            wordLengthTier (analyzeVocabularyFree text).metrics.avgWordLength +
            advancedTier (((analyzeVocabularyFree text).metrics.advancedWords : ℚ) /
              (max (analyzeVocabularyFree text).metrics.totalWords 1 : ℕ)) -
            3 * ((findWordRepetitions (vocabWords text)).length : ℚ)))) ∧
    (analyzeVocabularyFree "").score = 60 := by
  constructor
  · intro text
    simp only [analyzeVocabularyFree]
    rw [repetition_chain_eq, advanced_chain_eq, wordLength_chain_eq, diversity_chain_eq]
  · decide

/-- The claimed capitalization deduction (5 when the leading capital is
missing). -/
def capitalizationDeduction (text : String) : ℚ :=
  if startsWithUpper (jsTrimStr text) then 0 else 5

/-- The claimed terminal-punctuation deduction (5 when missing). -/
def punctuationDeduction (text : String) : ℚ :=
  if endsWithTerminal (jsTrimStr text) then 0 else 5

/-- The word list used by the grammar analyzer (lowercased, whitespace
split, empty tokens dropped). -/
def grammarWords (text : String) : List String :=
  (wsTokens (lowerStr text)).filter (fun w => w.length > 0)

/-- The grammar analyzer's average words-per-sentence. -/
def avgWordsPerSentence (text : String) : ℚ :=
  ((grammarWords text).length : ℚ) / (max (sentencesOf text).length 1 : ℕ)

/-- The claimed sentence-length deduction (5 below average 5, 3 above 25). -/
def sentenceLengthDeduction (text : String) : ℚ :=
  if avgWordsPerSentence text < 5 then 5
  else if avgWordsPerSentence text > 25 then 3 else 0

/-- The claimed conjunction bonus (5 when a listed conjunction occurs as a
substring of the lowercased text). -/
def conjunctionBonus (text : String) : ℚ :=
  if grammarConjunctions.any (fun conj => strIncludes (lowerStr text) conj) then 5 else 0

set_option maxHeartbeats 1000000 in
lemma analyzeGrammarFree_score_eq (text : String) :
    (analyzeGrammarFree text).score =
      max 0 (min 100 (85 - capitalizationDeduction text - punctuationDeduction text -
        ((matchedErrorPatterns text).map (fun pe => pe.penalty)).sum -
        sentenceLengthDeduction text + conjunctionBonus text)) := by
  simp only [analyzeGrammarFree, matchedErrorPatterns]
  rw [foldl_penalty_sub (fun pe => wbTest pe.pattern (lowerStr text))]
  simp only [capitalizationDeduction, punctuationDeduction, sentenceLengthDeduction,
    conjunctionBonus, avgWordsPerSentence, grammarWords]
  refine congrArg (fun x => max 0 (min 100 x)) ?_
  cases hc : startsWithUpper (jsTrimStr text) <;>
  cases hp : endsWithTerminal (jsTrimStr text) <;>
  cases hj : grammarConjunctions.any (fun conj => strIncludes (lowerStr text) conj) <;>
    simp only [Bool.not_true, Bool.not_false, reduceIte] <;>
    split_ifs <;> first | ring1 | exact (False.elim (by assumption))

lemma commonErrors_penalty_mem (pe : ErrPat) (h : pe ∈ commonErrors) :
    5 ≤ pe.penalty ∧ pe.penalty ≤ 10 := by
  fin_cases h <;> exact ⟨by decide, by decide⟩

/-- Claim C2: the grammar analyzer is exactly base 85 with the fixed
deduction/bonus table (capitalization -5, punctuation -5, additive
pattern-specific penalties between 5 and 10 over a catalogue of at least 12
patterns, -5 for average words-per-sentence below 5 and -3 above 25, +5 for
a listed conjunction), clamped to [0,100]; in particular a text triggering
exactly one error pattern and no other deduction or bonus scores exactly
85 minus that pattern's penalty. -/
theorem c2_grammar_deduction_table :
    (∀ text : String,
      (analyzeGrammarFree text).score =
        max 0 (min 100 (85 - capitalizationDeduction text - punctuationDeduction text -
          ((matchedErrorPatterns text).map (fun pe => pe.penalty)).sum -
          sentenceLengthDeduction text + conjunctionBonus text))) ∧
    12 ≤ commonErrors.length ∧
    (∀ pe ∈ commonErrors, 5 ≤ pe.penalty ∧ pe.penalty ≤ 10) ∧
    (∀ (text : String) (pe : ErrPat),
      capitalizationDeduction text = 0 → punctuationDeduction text = 0 →
      sentenceLengthDeduction text = 0 → conjunctionBonus text = 0 →
      matchedErrorPatterns text = [pe] →
      (analyzeGrammarFree text).score = 85 - pe.penalty) := by
  refine ⟨analyzeGrammarFree_score_eq, by decide, fun pe h => commonErrors_penalty_mem pe h,
    fun text pe h1 h2 h3 h4 h5 => ?_⟩
  have hmem : pe ∈ commonErrors := by
    have : pe ∈ matchedErrorPatterns text := by rw [h5]; exact List.mem_singleton_self pe
    exact List.mem_of_mem_filter this
  obtain ⟨hp5, hp10⟩ := commonErrors_penalty_mem pe hmem
  rw [analyzeGrammarFree_score_eq, h1, h2, h3, h4, h5]
  simp only [List.map_cons, List.map_nil, List.sum_cons, List.sum_nil]
  rw [min_eq_right (by linarith), max_eq_right (by linarith)]
  ring

/-- Witness for C2's pattern-isolation conjunct: the sentence
"He don't like coffee today." triggers exactly the "he don't" pattern
(penalty 8) and no other deduction or bonus, scoring 85 - 8 = 77. -/
theorem c2_grammar_deduction_table_witness :
    matchedErrorPatterns "He don't like coffee today." =
        [⟨"he don't", "Subject-verb disagreement", 8⟩] ∧
      (analyzeGrammarFree "He don't like coffee today.").score = 85 - 8 :=
  ⟨by decide,
    c2_grammar_deduction_table.2.2.2 "He don't like coffee today."
      ⟨"he don't", "Subject-verb disagreement", 8⟩
      (by decide) (by decide) (by decide) (by decide) (by decide)⟩

lemma analyzeContentFree_relevance_some (text hint : String)
    (question sectionId : Option String) (h : hint ≠ "") :
    (analyzeContentFree text (some hint) question sectionId).relevance =
      min 100 (50 +
        ((countMatchingConcepts (wsTokens (lowerStr text)) (wsTokens (lowerStr hint)) : ℚ) /
          ((wsTokens (lowerStr hint)).length : ℚ)) * 50) := by
  have hb : (hint == "") = false := by
    simpa using h
  simp only [analyzeContentFree, jsTruthyStr, hb, Bool.not_false, reduceIte, Option.getD_some]
  rw [← min_assoc, min_self]

lemma analyzeContentFree_relevance_none (text : String) (question sectionId : Option String) :
    (analyzeContentFree text none question sectionId).relevance = 70 := by
  simp only [analyzeContentFree, jsTruthyStr, Bool.false_eq_true, reduceIte]
  exact min_eq_right (by norm_num)

/-- Claim C5: with a supplied (nonempty) expected-answer hint, relevance is
exactly `min(100, 50 + (matched hint tokens / total hint tokens) * 50)`,
where a hint token is matched by substring containment either way or by the
fixed synonym table; with no hint, relevance is exactly 70. -/
theorem c5_relevance_formula :
    (∀ (text hint : String) (question sectionId : Option String), hint ≠ "" →
      (analyzeContentFree text (some hint) question sectionId).relevance =
        min 100 (50 +
          ((countMatchingConcepts (wsTokens (lowerStr text)) (wsTokens (lowerStr hint)) : ℚ) /
            ((wsTokens (lowerStr hint)).length : ℚ)) * 50)) ∧
    (∀ (text : String) (question sectionId : Option String),
      (analyzeContentFree text none question sectionId).relevance = 70) :=
  ⟨fun text hint question sectionId h =>
      analyzeContentFree_relevance_some text hint question sectionId h,
    fun text question sectionId => analyzeContentFree_relevance_none text question sectionId⟩

/-- Witness for C5: hint "good job" against "I do good work" — "good" is
matched by containment, "job" by the work/job synonym group, so the ratio is
2/2 and relevance evaluates to 100. -/
theorem c5_relevance_formula_witness :
    (analyzeContentFree "I do good work" (some "good job") none none).relevance =
      min 100 (50 +
        ((countMatchingConcepts (wsTokens (lowerStr "I do good work"))
            (wsTokens (lowerStr "good job")) : ℚ) /
          ((wsTokens (lowerStr "good job")).length : ℚ)) * 50) ∧
    (analyzeContentFree "I do good work" (some "good job") none none).relevance = 100 := by
  have h := c5_relevance_formula.1 "I do good work" "good job" none none (by decide)
  exact ⟨h, by rw [h]; decide⟩

/-- Claim C8: for a fixed nonempty hint, if every hint token matched in one
transcript is also matched in another, the second transcript's relevance is
at least the first's (relevance is monotone in hint coverage; the transcript
length does not appear in the relevance formula at all, so the claim's
"holding length constant" proviso is not even needed). -/
theorem c8_relevance_monotone :
    ∀ (hint t1 t2 : String) (question sectionId : Option String), hint ≠ "" →
      (∀ w ∈ wsTokens (lowerStr hint),
        conceptMatched (wsTokens (lowerStr t2)) w = true →
        conceptMatched (wsTokens (lowerStr t1)) w = true) →
      (analyzeContentFree t2 (some hint) question sectionId).relevance ≤
        (analyzeContentFree t1 (some hint) question sectionId).relevance := by
  intro hint t1 t2 question sectionId h hmono
  rw [analyzeContentFree_relevance_some t2 hint question sectionId h,
    analyzeContentFree_relevance_some t1 hint question sectionId h]
  have hlen : (0 : ℚ) < ((wsTokens (lowerStr hint)).length : ℚ) := by
    exact_mod_cast wsTokens_length_pos (lowerStr hint)
  refine min_le_min (le_refl 100) (add_le_add_left ?_ 50)
  refine mul_le_mul_of_nonneg_right ?_ (by norm_num)
  refine (div_le_div_iff_of_pos_right hlen).mpr ?_
  have hc : countMatchingConcepts (wsTokens (lowerStr t2)) (wsTokens (lowerStr hint)) ≤
      countMatchingConcepts (wsTokens (lowerStr t1)) (wsTokens (lowerStr hint)) := by
    rw [countMatchingConcepts_eq_countP, countMatchingConcepts_eq_countP]
    exact List.countP_mono_left hmono
  exact_mod_cast hc

/-- Witness for C8: hint "good work"; "very good work indeed" matches a
superset of what "nothing relevant here" matches (the latter matches no hint
token), and its relevance (100) is indeed at least the other's (50). -/
theorem c8_relevance_monotone_witness :
    (analyzeContentFree "nothing relevant here" (some "good work") none none).relevance ≤
      (analyzeContentFree "very good work indeed" (some "good work") none none).relevance :=
  c8_relevance_monotone "good work" "very good work indeed" "nothing relevant here"
    none none (by decide) (by decide)

/-- Claim C9: `assessResponse("A", "")` (no audio, no hint, no question) is
total and returns the definite in-range scores fluency 70, pronunciation 75,
grammar 70, vocabulary 60, comprehension 70 — every internal division
(lexical diversity, average word length, advanced ratio, words per sentence)
is guarded by a `max(..., 1)` denominator, so the empty transcript evaluates
without division by zero, whichever way the analyzer promises settle. -/
theorem c9_empty_transcript_defined :
    ∀ (textOk audioOk : Bool),
      assessResponse textOk audioOk "A" "" none none none =
        { fluency := 70, pronunciation := 75, grammar := 70,
          vocabulary := 60, comprehension := 70 } := by
  intro textOk audioOk
  cases textOk <;> cases audioOk <;> decide

/-- Claim C10: the `questionText` argument never influences the result — it
is threaded into `analyzeContentFree` and from there into
`analyzeCompletenessForSection`, which never reads it, and the completeness
and coherence sub-signals are never folded into any returned dimension. -/
theorem c10_question_has_no_influence :
    ∀ (textOk audioOk : Bool) (sectionId userResponse : String)
      (audioBlob : Option AudioInput) (expectedAnswer : Option String)
      (question1 question2 : Option String),
      assessResponse textOk audioOk sectionId userResponse audioBlob expectedAnswer question1 =
        assessResponse textOk audioOk sectionId userResponse audioBlob expectedAnswer question2 := by
  intro textOk audioOk sectionId userResponse audioBlob expectedAnswer question1 question2
  rfl

lemma analyzeGrammarFree_score_bounds (text : String) :
    0 ≤ (analyzeGrammarFree text).score ∧ (analyzeGrammarFree text).score ≤ 100 := by
  simp only [analyzeGrammarFree]
  exact ⟨le_max_left 0 _, max_le (by norm_num) (min_le_left _ _)⟩

lemma analyzeVocabularyFree_score_bounds (text : String) :
    0 ≤ (analyzeVocabularyFree text).score ∧ (analyzeVocabularyFree text).score ≤ 100 := by
  simp only [analyzeVocabularyFree]
  exact ⟨le_max_left 0 _, max_le (by norm_num) (min_le_left _ _)⟩

lemma analyzeContentFree_relevance_bounds (text : String)
    (expectedAnswer question sectionId : Option String) :
    0 ≤ (analyzeContentFree text expectedAnswer question sectionId).relevance ∧
      (analyzeContentFree text expectedAnswer question sectionId).relevance ≤ 100 := by
  simp only [analyzeContentFree]
  refine ⟨le_min (by norm_num) ?_, min_le_left _ _⟩
  split_ifs
  · refine le_min (by norm_num) ?_
    positivity
  · norm_num

lemma estimatePronunciationFromText_bounds (text : String) :
    0 ≤ estimatePronunciationFromText text ∧ estimatePronunciationFromText text ≤ 100 := by
  simp only [estimatePronunciationFromText]
  refine ⟨le_min (by norm_num) ?_, min_le_left _ _⟩
  split_ifs <;> norm_num

lemma estimateFluencyFromText_bounds (text : String) :
    0 ≤ estimateFluencyFromText text ∧ estimateFluencyFromText text ≤ 100 := by
  simp only [estimateFluencyFromText]
  exact ⟨le_min (by norm_num) (le_trans (by norm_num) (le_max_left 40 _)), min_le_left _ _⟩

lemma calculateFluencyFromRate_bounds (speakingRate pauseFraction : ℚ) :
    0 ≤ calculateFluencyFromRate speakingRate pauseFraction ∧
      calculateFluencyFromRate speakingRate pauseFraction ≤ 100 := by
  simp only [calculateFluencyFromRate]
  refine ⟨le_min (by norm_num) ?_, min_le_left _ _⟩
  split_ifs <;> norm_num

lemma extractAudioMetrics_clarity_bounds (a : AudioInput) :
    0 ≤ (extractAudioMetrics a).clarity ∧ (extractAudioMetrics a).clarity ≤ 100 := by
  simp only [extractAudioMetrics, estimateClarity]
  exact ⟨le_min (by norm_num) (le_trans (by norm_num) (le_max_left 50 _)), min_le_left _ _⟩

lemma jsOrQ_bounds (o : Option ℚ) (fb : ℚ)
    (ho : ∀ v, o = some v → 0 ≤ v ∧ v ≤ 100) (hfb : 0 ≤ fb ∧ fb ≤ 100) :
    0 ≤ jsOrQ o fb ∧ jsOrQ o fb ≤ 100 := by
  cases o with
  | none => simpa [jsOrQ] using hfb
  | some v =>
      simp only [jsOrQ]
      split_ifs
      · exact hfb
      · exact ho v rfl

lemma combineIntelligentResults_bounds (textResult : Option TextAnalysis)
    (audioResult : Option AudioMetrics) (userResponse : String)
    (expectedAnswer : Option String)
    (ht : ∀ t, textResult = some t →
      (0 ≤ t.grammar.score ∧ t.grammar.score ≤ 100) ∧
      (0 ≤ t.vocabulary.score ∧ t.vocabulary.score ≤ 100) ∧
      (0 ≤ t.content.relevance ∧ t.content.relevance ≤ 100))
    (ha : ∀ a, audioResult = some a → 0 ≤ a.clarity ∧ a.clarity ≤ 100) :
    (0 ≤ (combineIntelligentResults textResult audioResult userResponse
        expectedAnswer).fluency ∧
      (combineIntelligentResults textResult audioResult userResponse
        expectedAnswer).fluency ≤ 100) ∧
    (0 ≤ (combineIntelligentResults textResult audioResult userResponse
        expectedAnswer).pronunciation ∧
      (combineIntelligentResults textResult audioResult userResponse
        expectedAnswer).pronunciation ≤ 100) ∧
    (0 ≤ (combineIntelligentResults textResult audioResult userResponse
        expectedAnswer).grammar ∧
      (combineIntelligentResults textResult audioResult userResponse
        expectedAnswer).grammar ≤ 100) ∧
    (0 ≤ (combineIntelligentResults textResult audioResult userResponse
        expectedAnswer).vocabulary ∧
      (combineIntelligentResults textResult audioResult userResponse
        expectedAnswer).vocabulary ≤ 100) ∧
    (0 ≤ (combineIntelligentResults textResult audioResult userResponse
        expectedAnswer).comprehension ∧
      (combineIntelligentResults textResult audioResult userResponse
        expectedAnswer).comprehension ≤ 100) := by
  simp only [combineIntelligentResults]
  refine ⟨mathRound_mem _ ?_ ?_, mathRound_mem _ ?_ ?_, mathRound_mem _ ?_ ?_,
    mathRound_mem _ ?_ ?_, mathRound_mem _ ?_ ?_⟩
  · cases audioResult with
    | none => exact (estimateFluencyFromText_bounds userResponse).1
    | some a =>
        dsimp only
        split_ifs
        · exact (calculateFluencyFromRate_bounds a.speakingRate a.pauseFraction).1
        · exact (estimateFluencyFromText_bounds userResponse).1
  · cases audioResult with
    | none => exact (estimateFluencyFromText_bounds userResponse).2
    | some a =>
        dsimp only
        split_ifs
        · exact (calculateFluencyFromRate_bounds a.speakingRate a.pauseFraction).2
        · exact (estimateFluencyFromText_bounds userResponse).2
  · cases audioResult with
    | none => exact (estimatePronunciationFromText_bounds userResponse).1
    | some a =>
        dsimp only
        split_ifs with hcl
        · exact (ha a rfl).1
        · exact (estimatePronunciationFromText_bounds userResponse).1
  · cases audioResult with
    | none => exact (estimatePronunciationFromText_bounds userResponse).2
    | some a =>
        dsimp only
        split_ifs with hcl
        · exact (ha a rfl).2
        · exact (estimatePronunciationFromText_bounds userResponse).2
  · refine (jsOrQ_bounds _ _ ?_ ?_).1
    · intro v hv
      rcases textResult with _ | t
      · simp at hv
      · simp only [Option.map_some'] at hv
        obtain rfl := Option.some.inj hv
        exact (ht t rfl).1
    · exact analyzeGrammarFree_score_bounds userResponse
  · refine (jsOrQ_bounds _ _ ?_ ?_).2
    · intro v hv
      rcases textResult with _ | t
      · simp at hv
      · simp only [Option.map_some'] at hv
        obtain rfl := Option.some.inj hv
        exact (ht t rfl).1
    · exact analyzeGrammarFree_score_bounds userResponse
  · refine (jsOrQ_bounds _ _ ?_ ?_).1
    · intro v hv
      rcases textResult with _ | t
      · simp at hv
      · simp only [Option.map_some'] at hv
        obtain rfl := Option.some.inj hv
        exact (ht t rfl).2.1
    · exact analyzeVocabularyFree_score_bounds userResponse
  · refine (jsOrQ_bounds _ _ ?_ ?_).2
    · intro v hv
      rcases textResult with _ | t
      · simp at hv
      · simp only [Option.map_some'] at hv
        obtain rfl := Option.some.inj hv
        exact (ht t rfl).2.1
    · exact analyzeVocabularyFree_score_bounds userResponse
  · refine (jsOrQ_bounds _ _ ?_ ?_).1
    · intro v hv
      rcases textResult with _ | t
      · simp at hv
      · simp only [Option.map_some'] at hv
        obtain rfl := Option.some.inj hv
        exact (ht t rfl).2.2
    · exact analyzeContentFree_relevance_bounds userResponse expectedAnswer none none
  · refine (jsOrQ_bounds _ _ ?_ ?_).2
    · intro v hv
      rcases textResult with _ | t
      · simp at hv
      · simp only [Option.map_some'] at hv
        obtain rfl := Option.some.inj hv
        exact (ht t rfl).2.2
    · exact analyzeContentFree_relevance_bounds userResponse expectedAnswer none none

/-- Claim C1: for every settlement of the analyzer promises, section id,
transcript, optional audio input, optional expected-answer hint and optional
question text, `assessResponse` is total (the Lean model is a total
function, and no reachable path of the source throws: `Promise.allSettled`
never rejects and every analyzer failure is replaced by its text-only
fallback) and returns five integer fields each within [0, 100] — never NaN
or undefined in the model's exact arithmetic. -/
theorem c1_assessResponse_complete_scores :
    ∀ (textOk audioOk : Bool) (sectionId userResponse : String)
      (audioBlob : Option AudioInput) (expectedAnswer question : Option String),
      (0 ≤ (assessResponse textOk audioOk sectionId userResponse audioBlob
          expectedAnswer question).fluency ∧
        (assessResponse textOk audioOk sectionId userResponse audioBlob
          expectedAnswer question).fluency ≤ 100) ∧
      (0 ≤ (assessResponse textOk audioOk sectionId userResponse audioBlob
          expectedAnswer question).pronunciation ∧
        (assessResponse textOk audioOk sectionId userResponse audioBlob
          expectedAnswer question).pronunciation ≤ 100) ∧
      (0 ≤ (assessResponse textOk audioOk sectionId userResponse audioBlob
          expectedAnswer question).grammar ∧
        (assessResponse textOk audioOk sectionId userResponse audioBlob
          expectedAnswer question).grammar ≤ 100) ∧
      (0 ≤ (assessResponse textOk audioOk sectionId userResponse audioBlob
          expectedAnswer question).vocabulary ∧
        (assessResponse textOk audioOk sectionId userResponse audioBlob
          expectedAnswer question).vocabulary ≤ 100) ∧
      (0 ≤ (assessResponse textOk audioOk sectionId userResponse audioBlob
          expectedAnswer question).comprehension ∧
        (assessResponse textOk audioOk sectionId userResponse audioBlob
          expectedAnswer question).comprehension ≤ 100) := by
  intro textOk audioOk sectionId userResponse audioBlob expectedAnswer question
  simp only [assessResponse]
  apply combineIntelligentResults_bounds
  · intro t htm
    cases textOk with
    | false => simp at htm
    | true =>
        rw [if_pos rfl] at htm
        obtain rfl := Option.some.inj htm
        exact ⟨analyzeGrammarFree_score_bounds userResponse,
          analyzeVocabularyFree_score_bounds userResponse,
          analyzeContentFree_relevance_bounds userResponse expectedAnswer question
            (some sectionId)⟩
  · intro a ham
    cases audioOk with
    | false => simp at ham
    | true =>
        rw [if_pos rfl] at ham
        rcases audioBlob with _ | b
        · simp at ham
        · rw [Option.map_some'] at ham
          obtain rfl := Option.some.inj ham
          exact extractAudioMetrics_clarity_bounds b
